import Mathlib

/-!
Verification of the log-view resolver in
`x-pack/platform/plugins/shared/logs_shared/common/log_views/resolved_log_view.ts`
and of the localized placeholder constant in the second source file.

The TypeScript code is embedded shallowly: the injected asynchronous
services (`DataViewsContract`, `LogSourcesService`) become records of
`Except`-returning functions, promise rejection becomes the `Except.error`
case, and each resolver additionally returns the ordered list of external
service calls it performed, so that call-count and call-order properties
can be stated.
-/

/-- Modelled from the spec: the timestamp field name constant imported from
`../constants`; its concrete value is not part of this fragment. -/
def TIMESTAMP_FIELD : String := "@timestamp"

/-- Modelled from the spec: the tiebreaker field name constant imported from
`../constants`; its concrete value is not part of this fragment. -/
def TIEBREAKER_FIELD : String := "_doc"

/-- Modelled from the spec: a field description (`FieldSpec` from the
data-views plugin) is opaque to this fragment; only its identity matters. -/
abbrev FieldSpec := String

/-- Alias from the source: `export type ResolvedLogViewField = FieldSpec`. -/
abbrev ResolvedLogViewField := FieldSpec

/-- Modelled from the spec: a display column configuration is opaque to this
fragment; the resolver passes it through unchanged. -/
abbrev LogViewColumnConfiguration := String

/-- Modelled from the spec: `estypes.MappingRuntimeFields` is a JSON object
mapping runtime field names to their definitions; embedded as an
association list. The empty object is `[]`. -/
abbrev MappingRuntimeFields := List (String × String)

/-- The discriminated `logIndices` configuration. The source type is a
union of `\x7b type: 'index_name', indexName \x7d`,
`\x7b type: 'data_view', dataViewId \x7d` and
`\x7b type: 'kibana_advanced_setting' \x7d`; it is embedded as a record
with a string discriminant so that malformed discriminants (which the code
guards against at runtime) are representable. A payload field is only read
under the matching discriminant, as in the source. -/
structure LogIndicesConfig where
  type : String
  indexName : String
  dataViewId : String
  deriving DecidableEq

/-- The stored log-view attributes, restricted to the fields the resolver
reads: `name`, `description`, `logIndices` and `logColumns`. -/
structure LogViewAttributes where
  name : String
  description : String
  logIndices : LogIndicesConfig
  logColumns : List LogViewColumnConfiguration
  deriving DecidableEq

/-- Modelled from the spec: the static configuration
(`LogViewsStaticConfig`), of which the resolver reads only the optional
`messageFields`. -/
structure LogViewsStaticConfig where
  messageFields : Option (List String)
  deriving DecidableEq

/-- Modelled from the spec: the static defaults imported from
`./defaults`; the resolver uses only their `messageFields`. -/
structure LogViewsStaticDefaults where
  messageFields : List String
  deriving DecidableEq

/-- Modelled from the spec: `defaultLogViewsStaticConfig` from
`./defaults`, the fallback for an absent `config.messageFields`. -/
def defaultLogViewsStaticConfig : LogViewsStaticDefaults :=
  { messageFields := ["message"] }

/-- Modelled from the spec: a Kibana data view, restricted to the members
the resolver uses: `getIndexPattern()`, `timeFieldName`, `fields` and
`getRuntimeMappings()`. -/
structure DataView where
  title : String
  timeFieldName : Option String
  fields : List FieldSpec
  runtimeFieldMap : MappingRuntimeFields
  deriving DecidableEq

/-- `dataView.getIndexPattern()` returns the data view's index pattern
(its title). -/
def DataView.getIndexPattern (dataView : DataView) : String :=
  dataView.title

/-- `dataView.getRuntimeMappings()` returns the data view's runtime field
mappings. -/
def DataView.getRuntimeMappings (dataView : DataView) : MappingRuntimeFields :=
  dataView.runtimeFieldMap

/-- The specification object passed to `dataViewsService.create`. -/
structure DataViewSpec where
  id : String
  name : String
  title : String
  timeFieldName : String
  allowNoIndex : Bool
  deriving DecidableEq

/-- Modelled from the spec: an error value rejected by an external service
call; only its string rendering is observable here. -/
structure ServiceError where
  message : String
  deriving DecidableEq

/-- Modelled from the spec: a log source returned by
`logSourcesService.getLogSources()`, of which the resolver reads
`indexPattern`. -/
structure LogSource where
  indexPattern : String
  deriving DecidableEq

/-- Modelled from the spec: the injected `DataViewsContract`, restricted to
the two methods the resolver calls. Rejection is `Except.error`. -/
structure DataViewsService where
  create : DataViewSpec → Bool → Bool → Except ServiceError DataView
  get : String → Except ServiceError DataView

/-- Modelled from the spec: the injected `LogSourcesService`, restricted to
its `getLogSources` method. Rejection is `Except.error`. -/
structure LogSourcesService where
  getLogSources : Unit → Except ServiceError (List LogSource)

/-- The possible rejection values of the resolver: the domain-specific
`ResolveLogViewError` carrying the original service error, a generic
`Error` thrown on a malformed discriminant, or an unwrapped service error
propagating through an `await` that has no catch handler. -/
inductive ResolveError where
  | resolveLogViewError (message : String) (cause : ServiceError)
  | genericError (message : String)
  | serviceError (cause : ServiceError)
  deriving DecidableEq

/-- True exactly on the domain-specific wrapped error. -/
def ResolveError.isResolveLogViewError : ResolveError → Bool
  | .resolveLogViewError _ _ => true
  | _ => false

/-- The resolved output object (`ResolvedLogView`). -/
structure ResolvedLogView where
  name : String
  description : String
  indices : String
  timestampField : String
  tiebreakerField : String
  messageField : List String
  fields : List ResolvedLogViewField
  runtimeMappings : MappingRuntimeFields
  columns : List LogViewColumnConfiguration
  dataViewReference : DataView
  deriving DecidableEq

/-- One external service call performed during resolution, recording the
arguments it was given. -/
inductive ServiceCall where
  | create (spec : DataViewSpec) (skipFetchFields displayErrors : Bool)
  | get (dataViewId : String)
  | getLogSources
  deriving DecidableEq

/-- True exactly on `dataViewsService.create` calls. -/
def ServiceCall.isCreate : ServiceCall → Bool
  | .create _ _ _ => true
  | _ => false

/-- True exactly on `dataViewsService.get` calls. -/
def ServiceCall.isGet : ServiceCall → Bool
  | .get _ => true
  | _ => false

/-- True exactly on `logSourcesService.getLogSources` calls. -/
def ServiceCall.isGetLogSources : ServiceCall → Bool
  | .getLogSources => true
  | _ => false

/-- The `title` argument of a `create` call, `none` for the other calls. -/
def ServiceCall.createTitle : ServiceCall → Option String
  | .create spec _ _ => some spec.title
  | _ => none

/-- The result of a resolver: the ordered trace of external service calls
it performed, paired with its settled value (fulfilment or rejection). -/
abbrev ResolveOutcome := List ServiceCall × Except ResolveError ResolvedLogView

/-- `resolveLegacyReference` from the source: guards the discriminant,
creates an ad-hoc data view titled with the configured index name, wraps a
creation failure in `ResolveLogViewError`, and assembles the output. -/
def resolveLegacyReference (logViewId : String) (logViewAttributes : LogViewAttributes)
    (dataViewsService : DataViewsService) (config : LogViewsStaticConfig) :
    ResolveOutcome :=
  if logViewAttributes.logIndices.type ≠ "index_name" then
    ([], .error (.genericError "This function can only resolve legacy references"))
  else
    let indices := logViewAttributes.logIndices.indexName
    let spec : DataViewSpec :=
      { id := "log-view-" ++ logViewId
        name := logViewAttributes.name
        title := indices
        timeFieldName := TIMESTAMP_FIELD
        allowNoIndex := true }
    match dataViewsService.create spec false false with
    | .error error =>
        ([.create spec false false],
         .error (.resolveLogViewError
           ("Failed to create Data View reference: " ++ error.message) error))
    | .ok dataViewReference =>
        ([.create spec false false],
         .ok { indices := indices
               timestampField := TIMESTAMP_FIELD
               tiebreakerField := TIEBREAKER_FIELD
               messageField :=
                 config.messageFields.getD defaultLogViewsStaticConfig.messageFields
               fields := dataViewReference.fields
               runtimeMappings := []
               columns := logViewAttributes.logColumns
               name := logViewAttributes.name
               description := logViewAttributes.description
               dataViewReference := dataViewReference })

/-- `resolveRuntimeMappings` from the source. -/
def resolveRuntimeMappings (dataView : DataView) : MappingRuntimeFields :=
  dataView.getRuntimeMappings

/-- `resolveDataViewReference` from the source: guards the discriminant,
fetches the configured data view, wraps a fetch failure in
`ResolveLogViewError`, and assembles the output from the fetched view. -/
def resolveDataViewReference (logViewAttributes : LogViewAttributes)
    (dataViewsService : DataViewsService) : ResolveOutcome :=
  if logViewAttributes.logIndices.type ≠ "data_view" then
    ([], .error (.genericError "This function can only resolve Kibana data view references"))
  else
    let dataViewId := logViewAttributes.logIndices.dataViewId
    match dataViewsService.get dataViewId with
    | .error error =>
        ([.get dataViewId],
         .error (.resolveLogViewError
           ("Failed to fetch data view \"" ++ dataViewId ++ "\": " ++ error.message) error))
    | .ok dataView =>
        ([.get dataViewId],
         .ok { indices := dataView.getIndexPattern
               timestampField := dataView.timeFieldName.getD TIMESTAMP_FIELD
               tiebreakerField := TIEBREAKER_FIELD
               messageField := ["message"]
               fields := dataView.fields
               runtimeMappings := resolveRuntimeMappings dataView
               columns := logViewAttributes.logColumns
               name := logViewAttributes.name
               description := logViewAttributes.description
               dataViewReference := dataView })

/-- `resolveKibanaAdvancedSettingReference` from the source: guards the
discriminant, lists the log sources (an `await` with no catch handler, so
a failure propagates unwrapped), joins their index patterns with commas,
creates an ad-hoc data view titled with that join (wrapping a creation
failure in `ResolveLogViewError`), and assembles the output. -/
def resolveKibanaAdvancedSettingReference (logViewId : String)
    (logViewAttributes : LogViewAttributes) (dataViewsService : DataViewsService)
    (logSourcesService : LogSourcesService) : ResolveOutcome :=
  if logViewAttributes.logIndices.type ≠ "kibana_advanced_setting" then
    ([], .error (.genericError
      "This function can only resolve references to the Log Sources Kibana advanced setting"))
  else
    match logSourcesService.getLogSources () with
    | .error error => ([.getLogSources], .error (.serviceError error))
    | .ok logSources =>
        let indices :=
          String.intercalate "," (logSources.map fun logSource => logSource.indexPattern)
        let spec : DataViewSpec :=
          { id := "log-view-" ++ logViewId
            name := logViewAttributes.name
            title := indices
            timeFieldName := TIMESTAMP_FIELD
            allowNoIndex := true }
        match dataViewsService.create spec false false with
        | .error error =>
            ([.getLogSources, .create spec false false],
             .error (.resolveLogViewError
               ("Failed to create Data View reference: " ++ error.message) error))
        | .ok dataViewReference =>
            ([.getLogSources, .create spec false false],
             .ok { indices := indices
                   timestampField := TIMESTAMP_FIELD
                   tiebreakerField := TIEBREAKER_FIELD
                   messageField := ["message"]
                   fields := dataViewReference.fields
                   runtimeMappings := []
                   columns := logViewAttributes.logColumns
                   name := logViewAttributes.name
                   description := logViewAttributes.description
                   dataViewReference := dataViewReference })

/-- `resolveLogView` from the source: the three-way dispatch on
`logViewAttributes.logIndices.type`. -/
def resolveLogView (logViewId : String) (logViewAttributes : LogViewAttributes)
    (dataViewsService : DataViewsService) (logSourcesService : LogSourcesService)
    (config : LogViewsStaticConfig) : ResolveOutcome :=
  if logViewAttributes.logIndices.type = "index_name" then
    resolveLegacyReference logViewId logViewAttributes dataViewsService config
  else if logViewAttributes.logIndices.type = "data_view" then
    resolveDataViewReference logViewAttributes dataViewsService
  else
    resolveKibanaAdvancedSettingReference logViewId logViewAttributes dataViewsService
      logSourcesService

/-- Modelled from the spec: `i18n.translate` from `@kbn/i18n` renders a
message id with options; in the default locale it yields the
`defaultMessage`, independently of any program input. -/
structure TranslateArgs where
  defaultMessage : String
  deriving DecidableEq

/-- Modelled from the spec: the translation function of `@kbn/i18n` in the
default locale. -/
def i18nTranslate (id : String) (args : TranslateArgs) : String :=
  args.defaultMessage

/-- `ML_JOB_SELECT_PLACEHOLDER_TEXT` from the second source file. -/
def ML_JOB_SELECT_PLACEHOLDER_TEXT : String :=
  i18nTranslate
    "xpack.securitySolution.detectionEngine.createRule.stepDefineRule.mlJobSelectPlaceholderText"
    { defaultMessage := "Select a job" }

/-- The specification object both creating branches pass to
`dataViewsService.create`: an ad-hoc data view whose id embeds the log
view id and whose title carries the resolved index pattern string. -/
def logViewDataViewSpec (logViewId : String) (name title : String) : DataViewSpec :=
  { id := "log-view-" ++ logViewId
    name := name
    title := title
    timeFieldName := TIMESTAMP_FIELD
    allowNoIndex := true }

/-- Example fixture: a stored data view as `dataViewsService.get` could
return it. -/
def sampleDataView : DataView :=
  { title := "logs-*,filebeat-*"
    timeFieldName := some "event.ingested"
    fields := ["message", "host.name"]
    runtimeFieldMap := [("session.id", "keyword")] }

/-- Example fixture: the data view a well-behaved `create` call returns
for a given specification. -/
def createdDataView (spec : DataViewSpec) : DataView :=
  { title := spec.title
    timeFieldName := some spec.timeFieldName
    fields := ["message"]
    runtimeFieldMap := [] }

/-- Example fixture: a data-views service whose calls all succeed. -/
def okDataViewsService : DataViewsService :=
  { create := fun spec _ _ => .ok (createdDataView spec)
    get := fun _ => .ok sampleDataView }

/-- Example fixture: a data-views service whose calls all fail. -/
def failingDataViewsService : DataViewsService :=
  { create := fun _ _ _ => .error { message := "create failed" }
    get := fun _ => .error { message := "get failed" } }

/-- Example fixture: a log-sources service returning two sources. -/
def okLogSourcesService : LogSourcesService :=
  { getLogSources := fun _ =>
      .ok [{ indexPattern := "logs-*" }, { indexPattern := "metrics-*" }] }

/-- Example fixture: a log-sources service whose call fails. -/
def failingLogSourcesService : LogSourcesService :=
  { getLogSources := fun _ => .error { message := "sources failed" } }

/-- Example fixture: attributes selecting the legacy `index_name` kind. -/
def legacyAttributes : LogViewAttributes :=
  { name := "Logs"
    description := "legacy log view"
    logIndices := { type := "index_name", indexName := "filebeat-*", dataViewId := "" }
    logColumns := ["timestampColumn", "messageColumn"] }

/-- Example fixture: attributes selecting the `data_view` kind. -/
def dataViewAttributes : LogViewAttributes :=
  { name := "Logs"
    description := "data view log view"
    logIndices := { type := "data_view", indexName := "", dataViewId := "dv-1" }
    logColumns := ["messageColumn"] }

/-- Example fixture: attributes selecting the `kibana_advanced_setting`
kind. -/
def advancedSettingAttributes : LogViewAttributes :=
  { name := "Logs"
    description := "advanced setting log view"
    logIndices := { type := "kibana_advanced_setting", indexName := "", dataViewId := "" }
    logColumns := [] }

/-- Example fixture: attributes with a malformed discriminant. -/
def malformedAttributes : LogViewAttributes :=
  { name := "Broken"
    description := "malformed log view"
    logIndices := { type := "mystery", indexName := "", dataViewId := "" }
    logColumns := [] }

/-- Example fixture: a static configuration with message fields set. -/
def sampleConfig : LogViewsStaticConfig :=
  { messageFields := some ["msg", "log.original"] }

/-- C1: `resolveLogView` dispatches three ways on
`logViewAttributes.logIndices.type`: the `index_name` kind goes to the
legacy-reference branch, the `data_view` kind to the data-view-reference
branch, and any other kind to the Kibana-advanced-setting branch; the
three guard conditions are mutually exclusive, so exactly one branch runs
per invocation. -/
theorem resolveLogView_three_way_dispatch
    (logViewId : String) (attrs : LogViewAttributes) (dvs : DataViewsService)
    (lss : LogSourcesService) (config : LogViewsStaticConfig) :
    (attrs.logIndices.type = "index_name" ∧ attrs.logIndices.type ≠ "data_view" ∧
      resolveLogView logViewId attrs dvs lss config =
        resolveLegacyReference logViewId attrs dvs config) ∨
    (attrs.logIndices.type = "data_view" ∧ attrs.logIndices.type ≠ "index_name" ∧
      resolveLogView logViewId attrs dvs lss config = resolveDataViewReference attrs dvs) ∨
    (attrs.logIndices.type ≠ "index_name" ∧ attrs.logIndices.type ≠ "data_view" ∧
      resolveLogView logViewId attrs dvs lss config =
        resolveKibanaAdvancedSettingReference logViewId attrs dvs lss) := by
  by_cases h1 : attrs.logIndices.type = "index_name"
  · exact Or.inl ⟨h1, by rw [h1]; decide, by rw [resolveLogView, if_pos h1]⟩
  · by_cases h2 : attrs.logIndices.type = "data_view"
    · exact Or.inr (Or.inl ⟨h2, by rw [h2]; decide,
        by rw [resolveLogView, if_neg h1, if_pos h2]⟩)
    · exact Or.inr (Or.inr ⟨h1, h2, by rw [resolveLogView, if_neg h1, if_neg h2]⟩)

/-- C2 counterexample: with the `kibana_advanced_setting` kind and a
failing `logSourcesService.getLogSources`, `resolveLogView` rejects with
the unwrapped service error — there is no catch handler around that
`await` — so the rejection is not a `ResolveLogViewError`. -/
theorem resolveLogView_getLogSources_failure_unwrapped :
    (resolveLogView "default" advancedSettingAttributes okDataViewsService
        failingLogSourcesService sampleConfig).2 =
      .error (.serviceError { message := "sources failed" }) ∧
    (ResolveError.serviceError { message := "sources failed" }).isResolveLogViewError = false :=
  ⟨rfl, rfl⟩

/-- C2 amended: failures of `dataViewsService.create` (in the legacy and
advanced-setting branches) and of `dataViewsService.get` (in the data-view
branch) are wrapped in `ResolveLogViewError` carrying the original error;
a failure of `logSourcesService.getLogSources` is not wrapped —
`resolveLogView` rejects with the original service error unchanged. -/
theorem resolveLogView_error_wrapping
    (logViewId : String) (attrs : LogViewAttributes) (dvs : DataViewsService)
    (lss : LogSourcesService) (config : LogViewsStaticConfig) (e : ServiceError) :
    (attrs.logIndices.type = "index_name" →
      dvs.create (logViewDataViewSpec logViewId attrs.name attrs.logIndices.indexName)
          false false = .error e →
      (resolveLogView logViewId attrs dvs lss config).2 =
        .error (.resolveLogViewError
          ("Failed to create Data View reference: " ++ e.message) e)) ∧
    (attrs.logIndices.type = "data_view" →
      dvs.get attrs.logIndices.dataViewId = .error e →
      (resolveLogView logViewId attrs dvs lss config).2 =
        .error (.resolveLogViewError
          ("Failed to fetch data view \"" ++ attrs.logIndices.dataViewId ++ "\": " ++
            e.message) e)) ∧
    (attrs.logIndices.type = "kibana_advanced_setting" →
      lss.getLogSources () = .error e →
      (resolveLogView logViewId attrs dvs lss config).2 = .error (.serviceError e)) ∧
    (attrs.logIndices.type = "kibana_advanced_setting" →
      ∀ logSources, lss.getLogSources () = .ok logSources →
        dvs.create (logViewDataViewSpec logViewId attrs.name
            (String.intercalate "," (logSources.map LogSource.indexPattern)))
          false false = .error e →
        (resolveLogView logViewId attrs dvs lss config).2 =
          .error (.resolveLogViewError
            ("Failed to create Data View reference: " ++ e.message) e)) := by
  refine ⟨fun htype hfail => ?_, fun htype hfail => ?_, fun htype hfail => ?_,
    fun htype logSources hsources hfail => ?_⟩
  · rw [resolveLogView, if_pos htype, resolveLegacyReference, if_neg (by simp [htype])]
    simp only [logViewDataViewSpec] at hfail
    dsimp only
    rw [hfail]
  · rw [resolveLogView, if_neg (by simp [htype]), if_pos htype, resolveDataViewReference,
      if_neg (by simp [htype])]
    dsimp only
    rw [hfail]
  · rw [resolveLogView, if_neg (by simp [htype]), if_neg (by simp [htype]),
      resolveKibanaAdvancedSettingReference, if_neg (by simp [htype])]
    rw [hfail]
  · rw [resolveLogView, if_neg (by simp [htype]), if_neg (by simp [htype]),
      resolveKibanaAdvancedSettingReference, if_neg (by simp [htype])]
    rw [hsources]
    simp only [logViewDataViewSpec] at hfail
    dsimp only
    rw [hfail]

/-- C2 witness: the amended theorem applied to the legacy kind with a
failing `create` call. -/
theorem resolveLogView_error_wrapping_witness :
    (resolveLogView "default" legacyAttributes failingDataViewsService okLogSourcesService
        sampleConfig).2 =
      .error (.resolveLogViewError
        ("Failed to create Data View reference: " ++ "create failed")
        { message := "create failed" }) :=
  (resolveLogView_error_wrapping "default" legacyAttributes failingDataViewsService
      okLogSourcesService sampleConfig { message := "create failed" }).1 rfl rfl

/-- C3: with the `data_view` kind, the resolver fetches the configured
data view and the result's `indices` is `dataView.getIndexPattern()`, its
`timestampField` is the data view's `timeFieldName` when defined and
`TIMESTAMP_FIELD` otherwise (here `Option.getD`), its `runtimeMappings`
are `dataView.getRuntimeMappings()`, its `messageField` is `["message"]`,
and its `dataViewReference` is the fetched data view. -/
theorem resolveLogView_dataView_branch_fields
    (logViewId : String) (attrs : LogViewAttributes) (dvs : DataViewsService)
    (lss : LogSourcesService) (config : LogViewsStaticConfig) (dataView : DataView)
    (htype : attrs.logIndices.type = "data_view")
    (hget : dvs.get attrs.logIndices.dataViewId = .ok dataView) :
    (resolveLogView logViewId attrs dvs lss config).2 =
      .ok { name := attrs.name
            description := attrs.description
            indices := dataView.getIndexPattern
            timestampField := dataView.timeFieldName.getD TIMESTAMP_FIELD
            tiebreakerField := TIEBREAKER_FIELD
            messageField := ["message"]
            fields := dataView.fields
            runtimeMappings := dataView.getRuntimeMappings
            columns := attrs.logColumns
            dataViewReference := dataView } := by
  rw [resolveLogView, if_neg (by simp [htype]), if_pos htype, resolveDataViewReference,
    if_neg (by simp [htype])]
  dsimp only
  rw [hget]
  rfl

/-- C3 witness: the theorem applied to a concrete data-view configuration
and a service returning `sampleDataView`. -/
theorem resolveLogView_dataView_branch_fields_witness :
    (resolveLogView "default" dataViewAttributes okDataViewsService okLogSourcesService
        sampleConfig).2 =
      .ok { name := dataViewAttributes.name
            description := dataViewAttributes.description
            indices := sampleDataView.getIndexPattern
            timestampField := sampleDataView.timeFieldName.getD TIMESTAMP_FIELD
            tiebreakerField := TIEBREAKER_FIELD
            messageField := ["message"]
            fields := sampleDataView.fields
            runtimeMappings := sampleDataView.getRuntimeMappings
            columns := dataViewAttributes.logColumns
            dataViewReference := sampleDataView } :=
  resolveLogView_dataView_branch_fields "default" dataViewAttributes okDataViewsService
    okLogSourcesService sampleConfig sampleDataView rfl rfl

/-- C4: with a discriminant that is none of the three known kinds, the
dispatch falls through to the advanced-setting branch, whose guard throws
a generic `Error` (not a `ResolveLogViewError`) before any external
service is called: the call trace is empty. -/
theorem resolveLogView_malformed_type_generic_error
    (logViewId : String) (attrs : LogViewAttributes) (dvs : DataViewsService)
    (lss : LogSourcesService) (config : LogViewsStaticConfig)
    (h1 : attrs.logIndices.type ≠ "index_name")
    (h2 : attrs.logIndices.type ≠ "data_view")
    (h3 : attrs.logIndices.type ≠ "kibana_advanced_setting") :
    resolveLogView logViewId attrs dvs lss config =
      ([], .error (.genericError
        "This function can only resolve references to the Log Sources Kibana advanced setting")) ∧
    (ResolveError.genericError
        "This function can only resolve references to the Log Sources Kibana advanced setting"
      ).isResolveLogViewError = false := by
  refine ⟨?_, rfl⟩
  rw [resolveLogView, if_neg h1, if_neg h2, resolveKibanaAdvancedSettingReference, if_pos h3]

/-- C4 witness: the theorem applied to a discriminant outside the three
known kinds. -/
theorem resolveLogView_malformed_type_generic_error_witness :
    resolveLogView "default" malformedAttributes okDataViewsService okLogSourcesService
        sampleConfig =
      ([], .error (.genericError
        "This function can only resolve references to the Log Sources Kibana advanced setting")) ∧
    (ResolveError.genericError
        "This function can only resolve references to the Log Sources Kibana advanced setting"
      ).isResolveLogViewError = false :=
  resolveLogView_malformed_type_generic_error "default" malformedAttributes okDataViewsService
    okLogSourcesService sampleConfig (by decide) (by decide) (by decide)

/-- C5: with the `kibana_advanced_setting` kind and a successful
`getLogSources` call, the comma-separated join, in order, of the returned
sources' `indexPattern`s is the title of the one `create` call the
resolver performs, and on success it is also the result's `indices`. -/
theorem resolveLogView_advancedSetting_indices
    (logViewId : String) (attrs : LogViewAttributes) (dvs : DataViewsService)
    (lss : LogSourcesService) (config : LogViewsStaticConfig)
    (logSources : List LogSource)
    (htype : attrs.logIndices.type = "kibana_advanced_setting")
    (hsources : lss.getLogSources () = .ok logSources) :
    ((resolveLogView logViewId attrs dvs lss config).1.filterMap ServiceCall.createTitle =
      [String.intercalate "," (logSources.map LogSource.indexPattern)]) ∧
    (∀ r, (resolveLogView logViewId attrs dvs lss config).2 = .ok r →
      r.indices = String.intercalate "," (logSources.map LogSource.indexPattern)) := by
  rw [resolveLogView, if_neg (by simp [htype]), if_neg (by simp [htype]),
    resolveKibanaAdvancedSettingReference, if_neg (by simp [htype])]
  rw [hsources]
  dsimp only
  cases hc : dvs.create (logViewDataViewSpec logViewId attrs.name
      (String.intercalate "," (logSources.map LogSource.indexPattern))) false false with
  | error error =>
      rw [show (logViewDataViewSpec logViewId attrs.name
        (String.intercalate "," (logSources.map LogSource.indexPattern))) =
        { id := "log-view-" ++ logViewId, name := attrs.name,
          title := String.intercalate "," (logSources.map fun logSource => logSource.indexPattern),
          timeFieldName := TIMESTAMP_FIELD, allowNoIndex := true } from rfl] at hc
      rw [hc]
      refine ⟨rfl, fun r hr => ?_⟩
      exact absurd hr (by simp)
  | ok dataViewReference =>
      rw [show (logViewDataViewSpec logViewId attrs.name
        (String.intercalate "," (logSources.map LogSource.indexPattern))) =
        { id := "log-view-" ++ logViewId, name := attrs.name,
          title := String.intercalate "," (logSources.map fun logSource => logSource.indexPattern),
          timeFieldName := TIMESTAMP_FIELD, allowNoIndex := true } from rfl] at hc
      rw [hc]
      refine ⟨rfl, fun r hr => ?_⟩
      cases hr
      rfl

/-- C5 witness: the theorem applied to a service returning the sources
`logs-*` and `metrics-*`, in that order. -/
theorem resolveLogView_advancedSetting_indices_witness :
    (resolveLogView "default" advancedSettingAttributes okDataViewsService
        okLogSourcesService sampleConfig).1.filterMap ServiceCall.createTitle =
      [String.intercalate ","
        (([{ indexPattern := "logs-*" }, { indexPattern := "metrics-*" }] :
            List LogSource).map LogSource.indexPattern)] :=
  (resolveLogView_advancedSetting_indices "default" advancedSettingAttributes
    okDataViewsService okLogSourcesService sampleConfig
    [{ indexPattern := "logs-*" }, { indexPattern := "metrics-*" }] rfl rfl).1

/-- Example fixture: the record the legacy branch resolves to for
`legacyAttributes`, `okDataViewsService` and `sampleConfig`. -/
def legacyResolvedExample : ResolvedLogView :=
  { name := "Logs"
    description := "legacy log view"
    indices := "filebeat-*"
    timestampField := TIMESTAMP_FIELD
    tiebreakerField := TIEBREAKER_FIELD
    messageField := ["msg", "log.original"]
    fields := ["message"]
    runtimeMappings := []
    columns := ["timestampColumn", "messageColumn"]
    dataViewReference :=
      { title := "filebeat-*"
        timeFieldName := some TIMESTAMP_FIELD
        fields := ["message"]
        runtimeFieldMap := [] } }

/-- C6: in the `index_name` branch, a successful resolution's
`messageField` is `config.messageFields` when defined and
`defaultLogViewsStaticConfig.messageFields` otherwise; any successful
resolution outside that branch has `messageField = ["message"]`,
independently of `config`. -/
theorem resolveLogView_messageField_by_branch
    (logViewId : String) (attrs : LogViewAttributes) (dvs : DataViewsService)
    (lss : LogSourcesService) (config : LogViewsStaticConfig) :
    (attrs.logIndices.type = "index_name" →
      ∀ r, (resolveLogView logViewId attrs dvs lss config).2 = .ok r →
        (∀ fields, config.messageFields = some fields → r.messageField = fields) ∧
        (config.messageFields = none →
          r.messageField = defaultLogViewsStaticConfig.messageFields)) ∧
    (attrs.logIndices.type ≠ "index_name" →
      ∀ r, (resolveLogView logViewId attrs dvs lss config).2 = .ok r →
        r.messageField = ["message"]) := by
  constructor
  · intro htype r hr
    rw [resolveLogView, if_pos htype, resolveLegacyReference, if_neg (by simp [htype])] at hr
    dsimp only at hr
    split at hr
    · exact absurd hr (by simp)
    · injection hr with h
      subst h
      exact ⟨fun fields hf => by simp [hf], fun hf => by simp [hf]⟩
  · intro htype r hr
    by_cases h2 : attrs.logIndices.type = "data_view"
    · rw [resolveLogView, if_neg htype, if_pos h2, resolveDataViewReference,
        if_neg (by simp [h2])] at hr
      dsimp only at hr
      split at hr
      · exact absurd hr (by simp)
      · injection hr with h
        subst h
        rfl
    · rw [resolveLogView, if_neg htype, if_neg h2,
        resolveKibanaAdvancedSettingReference] at hr
      by_cases h3 : attrs.logIndices.type = "kibana_advanced_setting"
      · rw [if_neg (by simp [h3])] at hr
        split at hr
        · exact absurd hr (by simp)
        · dsimp only at hr
          split at hr
          · exact absurd hr (by simp)
          · injection hr with h
            subst h
            rfl
      · rw [if_pos h3] at hr
        exact absurd hr (by simp)

/-- C6 witness: the theorem applied to the legacy kind with
`sampleConfig`, whose `messageFields` are set. -/
theorem resolveLogView_messageField_by_branch_witness :
    legacyResolvedExample.messageField = ["msg", "log.original"] :=
  ((resolveLogView_messageField_by_branch "default" legacyAttributes okDataViewsService
      okLogSourcesService sampleConfig).1 rfl legacyResolvedExample rfl).1
    ["msg", "log.original"] rfl

/-- C7: in any single invocation of `resolveLogView`, each external
service method appears at most once in the call trace — `create`, `get`
and `getLogSources` are each called at most once, so a failed call is
never retried. -/
theorem resolveLogView_services_called_at_most_once
    (logViewId : String) (attrs : LogViewAttributes) (dvs : DataViewsService)
    (lss : LogSourcesService) (config : LogViewsStaticConfig) :
    ((resolveLogView logViewId attrs dvs lss config).1.countP ServiceCall.isCreate ≤ 1) ∧
    ((resolveLogView logViewId attrs dvs lss config).1.countP ServiceCall.isGet ≤ 1) ∧
    ((resolveLogView logViewId attrs dvs lss config).1.countP
      ServiceCall.isGetLogSources ≤ 1) := by
  unfold resolveLogView resolveLegacyReference resolveDataViewReference
    resolveKibanaAdvancedSettingReference
  dsimp only
  repeat' split
  all_goals simp [List.countP_cons, ServiceCall.isCreate, ServiceCall.isGet,
    ServiceCall.isGetLogSources]

/-- C8: every successful resolution, in any branch, has
`tiebreakerField = TIEBREAKER_FIELD` and carries `name`, `description`
and `logColumns` over from the stored attributes unchanged. -/
theorem resolveLogView_invariant_fields
    (logViewId : String) (attrs : LogViewAttributes) (dvs : DataViewsService)
    (lss : LogSourcesService) (config : LogViewsStaticConfig) (r : ResolvedLogView)
    (hok : (resolveLogView logViewId attrs dvs lss config).2 = .ok r) :
    r.tiebreakerField = TIEBREAKER_FIELD ∧ r.name = attrs.name ∧
    r.description = attrs.description ∧ r.columns = attrs.logColumns := by
  unfold resolveLogView resolveLegacyReference resolveDataViewReference
    resolveKibanaAdvancedSettingReference at hok
  dsimp only at hok
  repeat' split at hok
  all_goals first
    | (injection hok with h
       subst h
       exact ⟨rfl, rfl, rfl, rfl⟩)
    | exact (Except.noConfusion hok)

/-- C8 witness: the theorem applied to a concrete successful legacy
resolution. -/
theorem resolveLogView_invariant_fields_witness :
    legacyResolvedExample.tiebreakerField = TIEBREAKER_FIELD ∧
    legacyResolvedExample.name = legacyAttributes.name ∧
    legacyResolvedExample.description = legacyAttributes.description ∧
    legacyResolvedExample.columns = legacyAttributes.logColumns :=
  resolveLogView_invariant_fields "default" legacyAttributes okDataViewsService
    okLogSourcesService sampleConfig legacyResolvedExample rfl

/-- C9: a successful resolution outside the `data_view` kind — that is, in
the `index_name` or `kibana_advanced_setting` branch — always has empty
`runtimeMappings` and `timestampField = TIMESTAMP_FIELD`; contrapositively,
only the `data_view` branch can produce non-empty runtime mappings or a
non-default timestamp field. -/
theorem resolveLogView_default_runtime_and_timestamp
    (logViewId : String) (attrs : LogViewAttributes) (dvs : DataViewsService)
    (lss : LogSourcesService) (config : LogViewsStaticConfig) (r : ResolvedLogView)
    (hok : (resolveLogView logViewId attrs dvs lss config).2 = .ok r) :
    (attrs.logIndices.type ≠ "data_view" →
      r.runtimeMappings = [] ∧ r.timestampField = TIMESTAMP_FIELD) ∧
    (r.runtimeMappings ≠ [] ∨ r.timestampField ≠ TIMESTAMP_FIELD →
      attrs.logIndices.type = "data_view") := by
  have hmain : attrs.logIndices.type ≠ "data_view" →
      r.runtimeMappings = [] ∧ r.timestampField = TIMESTAMP_FIELD := by
    intro hne
    unfold resolveLogView resolveLegacyReference resolveDataViewReference
      resolveKibanaAdvancedSettingReference at hok
    dsimp only at hok
    repeat' split at hok
    all_goals first
      | (injection hok with h
         subst h
         exact ⟨rfl, rfl⟩)
      | exact (Except.noConfusion hok)
  refine ⟨hmain, fun hChanged => ?_⟩
  by_contra hne
  rcases hmain hne with ⟨h1, h2⟩
  rcases hChanged with h | h
  · exact h h1
  · exact h h2

/-- C9 witness: the theorem applied to a concrete successful legacy
resolution, whose runtime mappings are empty and whose timestamp field is
the default. -/
theorem resolveLogView_default_runtime_and_timestamp_witness :
    legacyResolvedExample.runtimeMappings = [] ∧
    legacyResolvedExample.timestampField = TIMESTAMP_FIELD :=
  (resolveLogView_default_runtime_and_timestamp "default" legacyAttributes
      okDataViewsService okLogSourcesService sampleConfig legacyResolvedExample rfl).1
    (by decide)

/-- C10: the localized placeholder constant is the fixed string rendered
from the default message `Select a job`; it takes no input and does not
depend on the log-view resolver. -/
theorem ML_JOB_SELECT_PLACEHOLDER_TEXT_is_select_a_job :
    ML_JOB_SELECT_PLACEHOLDER_TEXT = "Select a job" :=
  rfl
